import Mathlib

/-!
Verification of the flughermir-back flight-simulator core.

Shallow embedding of `src/physics.py` and `src/main.py` over the real
numbers: Python floats become `ℝ`, `math.sqrt`/`sin`/`cos` become
`Real.sqrt`/`Real.sin`/`Real.cos`, and `math.isfinite` is identically
true (every real number is finite), so the `isfinite` guards of the
source collapse to their finite branch.  Fallible or stateful code
(the scheduler loop in `main.py`) is modelled as an explicit state
transition function over a per-tick environment record.
-/

noncomputable section

/-- Mirror of the Python dataclass `AircraftState` (physics.py lines 11-28). -/
structure AircraftState where
  x : ℝ
  y : ℝ
  z : ℝ
  u : ℝ
  v : ℝ
  w : ℝ
  phi : ℝ
  theta : ℝ
  psi : ℝ
  p : ℝ
  q : ℝ
  r : ℝ
  throttle : ℝ
  elevator : ℝ
  aileron : ℝ
  rudder : ℝ

-- Constants from physics.py lines 31-48.
def MASS : ℝ := 1000.0
def G : ℝ := 9.81
def WEIGHT : ℝ := MASS * G
def WING_AREA : ℝ := 16.2
def CL0 : ℝ := 1.1
def CL_ALPHA : ℝ := 4.0
def CD0 : ℝ := 0.035
def K : ℝ := 0.03
def THRUST_MAX : ℝ := 2800.0
def ROLLING_MU : ℝ := 0.02
def V_LOF : ℝ := 28.0
def MAX_SPEED : ℝ := 400.0
def MAX_AIRSPEED_MS : ℝ := 83.33
def MAX_ANGLE : ℝ := Real.pi
def MAX_ANGULAR_RATE : ℝ := 4.0
def POS_LIMIT : ℝ := 1e6

/-- Python float modulo for a positive divisor: `x % y = x - y * floor (x / y)`. -/
def pymod (x y : ℝ) : ℝ := x - y * ⌊x / y⌋

/-- physics.py lines 52-54: raw speed magnitude floored at 0.1. -/
def v_mag (s : AircraftState) : ℝ :=
  let m := Real.sqrt (s.u * s.u + s.v * s.v + s.w * s.w)
  if m < 0.1 then 0.1 else m

/-- physics.py line 55: angle of attack. -/
def alphaF (s : AircraftState) : ℝ :=
  s.theta - (if 0.5 < v_mag s then s.w / v_mag s else 0)

/-- physics.py line 56: dynamic pressure. -/
def q_bar (s : AircraftState) : ℝ := 0.5 * 1.225 * v_mag s * v_mag s

/-- physics.py line 57: lift coefficient. -/
def cl_coeff (s : AircraftState) : ℝ := CL0 + CL_ALPHA * alphaF s

/-- physics.py line 58: drag coefficient. -/
def cd_coeff (s : AircraftState) : ℝ := CD0 + K * cl_coeff s * cl_coeff s

/-- physics.py line 59. -/
def liftF (s : AircraftState) : ℝ := q_bar s * WING_AREA * cl_coeff s

/-- physics.py line 60. -/
def dragF (s : AircraftState) : ℝ := q_bar s * WING_AREA * cd_coeff s

/-- physics.py line 61. -/
def thrustF (s : AircraftState) : ℝ := THRUST_MAX * s.throttle

/-- physics.py line 66. -/
def drag_x (s : AircraftState) : ℝ :=
  if 0.1 < v_mag s then dragF s * (s.u / v_mag s) else 0

/-- physics.py line 67. -/
def drag_z (s : AircraftState) : ℝ :=
  if 0.1 < v_mag s then dragF s * (s.w / v_mag s) else 0

/-- physics.py line 70. -/
def lift_z (s : AircraftState) : ℝ :=
  if 0.1 < v_mag s then liftF s * (s.u / v_mag s) else 0

/-- physics.py lines 68, 75-78: thrust minus drag, minus ground rolling friction. -/
def fxF (s : AircraftState) : ℝ :=
  let f := thrustF s - drag_x s
  if 0 ≤ s.z ∧ 0.1 < v_mag s then
    f - ROLLING_MU * max 0 (WEIGHT * Real.cos s.theta - liftF s) * (s.u / v_mag s)
  else f

/-- physics.py line 71. -/
def fzF (s : AircraftState) : ℝ :=
  -lift_z s - drag_z s + WEIGHT * Real.cos s.theta

/-- physics.py line 80. -/
def a_x (s : AircraftState) : ℝ := fxF s / MASS

/-- physics.py line 81. -/
def a_z (s : AircraftState) : ℝ := fzF s / MASS

/-- physics.py line 85. -/
def p_new (s : AircraftState) (dt : ℝ) : ℝ :=
  s.p + (s.aileron * 0.6 - s.p * 0.4) * dt

/-- physics.py line 86. -/
def q_new (s : AircraftState) (dt : ℝ) : ℝ :=
  s.q + (s.elevator * 0.6 - s.q * 0.4) * dt

/-- physics.py line 87. -/
def r_new (s : AircraftState) (dt : ℝ) : ℝ :=
  s.r + (s.rudder * 0.4 - s.r * 0.4) * dt

/-- physics.py line 88: integrated roll angle, before clamping. -/
def phi_i (s : AircraftState) (dt : ℝ) : ℝ := s.phi + p_new s dt * dt

/-- physics.py line 89. -/
def theta_i (s : AircraftState) (dt : ℝ) : ℝ := s.theta + q_new s dt * dt

/-- physics.py line 90. -/
def psi_i (s : AircraftState) (dt : ℝ) : ℝ := s.psi + r_new s dt * dt

/-- physics.py line 93. -/
def u_int (s : AircraftState) (dt : ℝ) : ℝ := s.u + a_x s * dt

/-- physics.py line 94 (`ay = 0.0`, line 82). -/
def v_int (s : AircraftState) (dt : ℝ) : ℝ := s.v + 0 * dt

/-- physics.py line 95. -/
def w_int (s : AircraftState) (dt : ℝ) : ℝ := s.w + a_z s * dt

/-- physics.py line 101: world x velocity via old-orientation rotation. -/
def u_w (s : AircraftState) (dt : ℝ) : ℝ :=
  u_int s dt * (Real.cos s.theta * Real.cos s.psi) +
    v_int s dt * (Real.sin s.phi * Real.sin s.theta * Real.cos s.psi -
      Real.cos s.phi * Real.sin s.psi) +
    w_int s dt * (Real.cos s.phi * Real.sin s.theta * Real.cos s.psi +
      Real.sin s.phi * Real.sin s.psi)

/-- physics.py line 102. -/
def v_w (s : AircraftState) (dt : ℝ) : ℝ :=
  u_int s dt * (Real.cos s.theta * Real.sin s.psi) +
    v_int s dt * (Real.sin s.phi * Real.sin s.theta * Real.sin s.psi +
      Real.cos s.phi * Real.cos s.psi) +
    w_int s dt * (Real.cos s.phi * Real.sin s.theta * Real.sin s.psi -
      Real.sin s.phi * Real.cos s.psi)

/-- physics.py line 103: world vertical (down) velocity before ground logic. -/
def w_w0 (s : AircraftState) (dt : ℝ) : ℝ :=
  u_int s dt * (-Real.sin s.theta) + v_int s dt * (Real.sin s.phi * Real.cos s.theta) +
    w_int s dt * (Real.cos s.phi * Real.cos s.theta)

/-- physics.py lines 106-107: on the ground, no downward-into-ground velocity. -/
def w_w1 (s : AircraftState) (dt : ℝ) : ℝ :=
  if 0 ≤ s.z ∧ 0 < w_w0 s dt then 0 else w_w0 s dt

/-- physics.py lines 110-111: below lift-off speed the wheels stay down. -/
def w_w2 (s : AircraftState) (dt : ℝ) : ℝ :=
  if 0 ≤ s.z ∧ v_mag s < V_LOF ∧ w_w1 s dt < 0 then 0 else w_w1 s dt

/-- physics.py line 112. -/
def z_pre (s : AircraftState) (dt : ℝ) : ℝ := s.z + w_w2 s dt * dt

/-- physics.py lines 113-114: never above the ground plane. -/
def z_i (s : AircraftState) (dt : ℝ) : ℝ :=
  if 0 < z_pre s dt then 0 else z_pre s dt

/-- physics.py line 115: vertical world velocity zeroed with the snap to ground. -/
def w_w3 (s : AircraftState) (dt : ℝ) : ℝ :=
  if 0 < z_pre s dt then 0 else w_w2 s dt

/-- physics.py line 116. -/
def x_i (s : AircraftState) (dt : ℝ) : ℝ := s.x + u_w s dt * dt

/-- physics.py line 117. -/
def y_i (s : AircraftState) (dt : ℝ) : ℝ := s.y + v_w s dt * dt

/-- physics.py line 123: body velocity re-expressed in the new orientation,
before the airspeed cap and per-component clamps. -/
def pre_u (s : AircraftState) (dt : ℝ) : ℝ :=
  u_w s dt * (Real.cos (theta_i s dt) * Real.cos (psi_i s dt)) +
    v_w s dt * (Real.cos (theta_i s dt) * Real.sin (psi_i s dt)) +
    w_w3 s dt * (-Real.sin (theta_i s dt))

/-- physics.py line 124. -/
def pre_v (s : AircraftState) (dt : ℝ) : ℝ :=
  u_w s dt * (Real.sin (phi_i s dt) * Real.sin (theta_i s dt) * Real.cos (psi_i s dt) -
      Real.cos (phi_i s dt) * Real.sin (psi_i s dt)) +
    v_w s dt * (Real.sin (phi_i s dt) * Real.sin (theta_i s dt) * Real.sin (psi_i s dt) +
      Real.cos (phi_i s dt) * Real.cos (psi_i s dt)) +
    w_w3 s dt * (Real.sin (phi_i s dt) * Real.cos (theta_i s dt))

/-- physics.py line 125. -/
def pre_w (s : AircraftState) (dt : ℝ) : ℝ :=
  u_w s dt * (Real.cos (phi_i s dt) * Real.sin (theta_i s dt) * Real.cos (psi_i s dt) +
      Real.sin (phi_i s dt) * Real.sin (psi_i s dt)) +
    v_w s dt * (Real.cos (phi_i s dt) * Real.sin (theta_i s dt) * Real.sin (psi_i s dt) -
      Real.sin (phi_i s dt) * Real.cos (psi_i s dt)) +
    w_w3 s dt * (Real.cos (phi_i s dt) * Real.cos (theta_i s dt))

/-- physics.py line 128: magnitude of the pre-clamp new-frame velocity. -/
def v_mag_new (s : AircraftState) (dt : ℝ) : ℝ :=
  Real.sqrt (pre_u s dt * pre_u s dt + pre_v s dt * pre_v s dt + pre_w s dt * pre_w s dt)

/-- Mirror of `update_physics` (physics.py lines 51-155): one semi-implicit
Euler step followed by the airspeed cap (direction-preserving scaling) and
per-component stability clamps.  The `isfinite(psi_new)` guard of line 140
is identically true over ℝ, so only its modulo branch remains. -/
def update_physics (s : AircraftState) (dt : ℝ) : AircraftState :=
  let m := v_mag_new s dt
  let u2 := if MAX_AIRSPEED_MS < m ∧ 0.01 < m then pre_u s dt * (MAX_AIRSPEED_MS / m)
            else pre_u s dt
  let v2 := if MAX_AIRSPEED_MS < m ∧ 0.01 < m then pre_v s dt * (MAX_AIRSPEED_MS / m)
            else pre_v s dt
  let w2 := if MAX_AIRSPEED_MS < m ∧ 0.01 < m then pre_w s dt * (MAX_AIRSPEED_MS / m)
            else pre_w s dt
  { x := max (-POS_LIMIT) (min POS_LIMIT (x_i s dt))
    y := max (-POS_LIMIT) (min POS_LIMIT (y_i s dt))
    z := max (-POS_LIMIT) (min POS_LIMIT (z_i s dt))
    u := max (-MAX_SPEED) (min MAX_SPEED u2)
    v := max (-MAX_SPEED) (min MAX_SPEED v2)
    w := max (-MAX_SPEED) (min MAX_SPEED w2)
    phi := max (-MAX_ANGLE) (min MAX_ANGLE (phi_i s dt))
    theta := max (-MAX_ANGLE) (min MAX_ANGLE (theta_i s dt))
    psi := pymod (psi_i s dt) (2 * Real.pi)
    p := max (-MAX_ANGULAR_RATE) (min MAX_ANGULAR_RATE (p_new s dt))
    q := max (-MAX_ANGULAR_RATE) (min MAX_ANGULAR_RATE (q_new s dt))
    r := max (-MAX_ANGULAR_RATE) (min MAX_ANGULAR_RATE (r_new s dt))
    throttle := s.throttle
    elevator := s.elevator
    aileron := s.aileron
    rudder := s.rudder }

-- Helper lemmas about the clamp pattern `max (-L) (min L x)` of the source.

lemma clamp_le {L x : ℝ} (hL : 0 ≤ L) : max (-L) (min L x) ≤ L :=
  max_le (by linarith) (min_le_left _ _)

lemma neg_le_clamp {L x : ℝ} : -L ≤ max (-L) (min L x) := le_max_left _ _

lemma abs_clamp_le {L x : ℝ} (hL : 0 ≤ L) : |max (-L) (min L x)| ≤ L :=
  abs_le.mpr ⟨neg_le_clamp, clamp_le hL⟩

lemma clamp_eq_of_abs_le {L x : ℝ} (h : |x| ≤ L) : max (-L) (min L x) = x := by
  rcases abs_le.mp h with ⟨h1, h2⟩
  rw [min_eq_right h2, max_eq_right h1]

lemma abs_le_sqrt_add_left (u a : ℝ) (ha : 0 ≤ a) :
    |u| ≤ Real.sqrt (u * u + a) := by
  rw [← Real.sqrt_mul_self_eq_abs]
  exact Real.sqrt_le_sqrt (by linarith)

/-- Each body-velocity component is bounded by the pre-clamp magnitude. -/
lemma abs_pre_u_le (s : AircraftState) (dt : ℝ) : |pre_u s dt| ≤ v_mag_new s dt := by
  have := abs_le_sqrt_add_left (pre_u s dt)
    (pre_v s dt * pre_v s dt + pre_w s dt * pre_w s dt)
    (by nlinarith [mul_self_nonneg (pre_v s dt), mul_self_nonneg (pre_w s dt)])
  simpa [v_mag_new, add_assoc] using this

lemma abs_pre_v_le (s : AircraftState) (dt : ℝ) : |pre_v s dt| ≤ v_mag_new s dt := by
  have h : pre_u s dt * pre_u s dt + pre_v s dt * pre_v s dt + pre_w s dt * pre_w s dt
      = pre_v s dt * pre_v s dt +
        (pre_u s dt * pre_u s dt + pre_w s dt * pre_w s dt) := by ring
  have := abs_le_sqrt_add_left (pre_v s dt)
    (pre_u s dt * pre_u s dt + pre_w s dt * pre_w s dt)
    (by nlinarith [mul_self_nonneg (pre_u s dt), mul_self_nonneg (pre_w s dt)])
  rw [v_mag_new, h]
  exact this

lemma abs_pre_w_le (s : AircraftState) (dt : ℝ) : |pre_w s dt| ≤ v_mag_new s dt := by
  have h : pre_u s dt * pre_u s dt + pre_v s dt * pre_v s dt + pre_w s dt * pre_w s dt
      = pre_w s dt * pre_w s dt +
        (pre_u s dt * pre_u s dt + pre_v s dt * pre_v s dt) := by ring
  have := abs_le_sqrt_add_left (pre_w s dt)
    (pre_u s dt * pre_u s dt + pre_v s dt * pre_v s dt)
    (by nlinarith [mul_self_nonneg (pre_u s dt), mul_self_nonneg (pre_v s dt)])
  rw [v_mag_new, h]
  exact this

lemma v_mag_new_nonneg (s : AircraftState) (dt : ℝ) : 0 ≤ v_mag_new s dt :=
  Real.sqrt_nonneg _

/-- Scaling a velocity vector by a nonnegative factor scales its magnitude. -/
lemma sqrt_scale (c u v w : ℝ) (hc : 0 ≤ c) :
    Real.sqrt (u * c * (u * c) + v * c * (v * c) + w * c * (w * c)) =
      Real.sqrt (u * u + v * v + w * w) * c := by
  have h : u * c * (u * c) + v * c * (v * c) + w * c * (w * c)
      = (u * u + v * v + w * w) * (c * c) := by ring
  have hn : (0 : ℝ) ≤ u * u + v * v + w * w := by
    nlinarith [mul_self_nonneg u, mul_self_nonneg v, mul_self_nonneg w]
  rw [h, Real.sqrt_mul hn, Real.sqrt_mul_self hc]

/-- Telemetry record: the dict produced by `state_to_telemetry` (physics.py
lines 158-192) and by `JSBSimWrapper.get_state`. -/
structure Telem where
  x : ℝ
  y : ℝ
  altitude : ℝ
  phi_deg : ℝ
  theta_deg : ℝ
  psi_deg : ℝ
  airspeed : ℝ
  vertical_speed : ℝ
  p_deg_s : ℝ
  q_deg_s : ℝ
  r_deg_s : ℝ
  throttle : ℝ
  physics_engine : String

/-- Python `round(x, 2)`: rounding to two decimals.  Python rounds exact
half-ties to even; the model rounds them up, which differs only on exact
ties and affects none of the stated bounds. -/
def round2 (x : ℝ) : ℝ := ((round (x * 100) : ℤ) : ℝ) / 100

/-- Python `round(x, 4)`. -/
def round4 (x : ℝ) : ℝ := ((round (x * 10000) : ℤ) : ℝ) / 10000

/-- Mirror of `state_to_telemetry` (physics.py lines 158-192).  Over ℝ the
`isfinite` guards are identically true, so the NaN branches collapse; the
`> 1e100` overflow guard is kept as a real comparison. -/
def state_to_telemetry (s : AircraftState) : Telem :=
  let vm := if 1e100 < max |s.u| (max |s.v| |s.w|) then MAX_AIRSPEED_MS
            else min (Real.sqrt (s.u * s.u + s.v * s.v + s.w * s.w)) MAX_AIRSPEED_MS
  let w_world := s.u * (-Real.sin s.theta) + s.v * (Real.sin s.phi * Real.cos s.theta) +
    s.w * (Real.cos s.phi * Real.cos s.theta)
  { x := s.x
    y := s.y
    altitude := -s.z
    phi_deg := round4 (s.phi * 180 / 3.14159265)
    theta_deg := round4 (s.theta * 180 / 3.14159265)
    psi_deg := round4 (s.psi * 180 / 3.14159265)
    airspeed := round2 vm
    vertical_speed := round2 (-w_world)
    p_deg_s := round2 (s.p * 180 / 3.14159265)
    q_deg_s := round2 (s.q * 180 / 3.14159265)
    r_deg_s := round2 (s.r * 180 / 3.14159265)
    throttle := s.throttle
    physics_engine := "manual" }

lemma round2_le_cap {x : ℝ} (h : x ≤ MAX_AIRSPEED_MS) : round2 x ≤ MAX_AIRSPEED_MS := by
  have hx : x * 100 ≤ 8333 := by
    rw [MAX_AIRSPEED_MS] at h; linarith
  have hfl : ⌊x * 100 + 1 / 2⌋ < (8334 : ℤ) := by
    apply Int.floor_lt.mpr
    push_cast
    linarith
  have hr : (round (x * 100) : ℤ) ≤ 8333 := by
    rw [round_eq]
    omega
  have hr2 : ((round (x * 100) : ℤ) : ℝ) ≤ 8333 := by exact_mod_cast hr
  rw [round2, MAX_AIRSPEED_MS]
  linarith

/-- The telemetry airspeed is capped at `MAX_AIRSPEED_MS` for every state. -/
lemma telemetry_airspeed_le (s : AircraftState) :
    (state_to_telemetry s).airspeed ≤ MAX_AIRSPEED_MS := by
  rw [state_to_telemetry]
  by_cases hbig : (1e100 : ℝ) < max |s.u| (max |s.v| |s.w|)
  · simp only [if_pos hbig]
    exact round2_le_cap le_rfl
  · simp only [if_neg hbig]
    exact round2_le_cap (min_le_right _ _)

/-- The stability-clamp invariants of spec section 3, as a predicate on the
post-step state. -/
def StateClamped (s : AircraftState) : Prop :=
  |s.u| ≤ MAX_SPEED ∧ |s.v| ≤ MAX_SPEED ∧ |s.w| ≤ MAX_SPEED ∧
    Real.sqrt (s.u * s.u + s.v * s.v + s.w * s.w) ≤ MAX_AIRSPEED_MS ∧
    |s.phi| ≤ Real.pi ∧ |s.theta| ≤ Real.pi ∧
    |s.p| ≤ MAX_ANGULAR_RATE ∧ |s.q| ≤ MAX_ANGULAR_RATE ∧ |s.r| ≤ MAX_ANGULAR_RATE ∧
    |s.x| ≤ POS_LIMIT ∧ |s.y| ≤ POS_LIMIT ∧ |s.z| ≤ POS_LIMIT

lemma max_airspeed_le_max_speed : MAX_AIRSPEED_MS ≤ MAX_SPEED := by
  rw [MAX_AIRSPEED_MS, MAX_SPEED]; norm_num

/-- After the cap-and-clamp block, the three velocity components and their
combined magnitude satisfy the claimed bounds. -/
lemma post_clamp_velocity (s : AircraftState) (dt : ℝ) :
    |(update_physics s dt).u| ≤ MAX_SPEED ∧ |(update_physics s dt).v| ≤ MAX_SPEED ∧
      |(update_physics s dt).w| ≤ MAX_SPEED ∧
      Real.sqrt ((update_physics s dt).u * (update_physics s dt).u +
        (update_physics s dt).v * (update_physics s dt).v +
        (update_physics s dt).w * (update_physics s dt).w) ≤ MAX_AIRSPEED_MS := by
  have hM : (0 : ℝ) ≤ MAX_SPEED := by rw [MAX_SPEED]; norm_num
  have hA : (0 : ℝ) < MAX_AIRSPEED_MS := by rw [MAX_AIRSPEED_MS]; norm_num
  have hm0 : 0 ≤ v_mag_new s dt := v_mag_new_nonneg s dt
  by_cases hc : MAX_AIRSPEED_MS < v_mag_new s dt ∧ (0.01 : ℝ) < v_mag_new s dt
  · -- the cap fires: each component is scaled by MAX_AIRSPEED_MS / magnitude
    have hmpos : (0 : ℝ) < v_mag_new s dt := lt_trans hA hc.1
    have hcnn : 0 ≤ MAX_AIRSPEED_MS / v_mag_new s dt := div_nonneg hA.le hm0
    have hscale : v_mag_new s dt * (MAX_AIRSPEED_MS / v_mag_new s dt) = MAX_AIRSPEED_MS := by
      field_simp
    have habs : ∀ t : ℝ, |t| ≤ v_mag_new s dt →
        |t * (MAX_AIRSPEED_MS / v_mag_new s dt)| ≤ MAX_AIRSPEED_MS := by
      intro t ht
      rw [abs_mul, abs_of_nonneg hcnn]
      calc |t| * (MAX_AIRSPEED_MS / v_mag_new s dt)
          ≤ v_mag_new s dt * (MAX_AIRSPEED_MS / v_mag_new s dt) := by
            apply mul_le_mul_of_nonneg_right ht hcnn
        _ = MAX_AIRSPEED_MS := hscale
    have hu := habs _ (abs_pre_u_le s dt)
    have hv := habs _ (abs_pre_v_le s dt)
    have hw := habs _ (abs_pre_w_le s dt)
    have hu' : (update_physics s dt).u = pre_u s dt * (MAX_AIRSPEED_MS / v_mag_new s dt) := by
      simp only [update_physics, if_pos hc]
      exact clamp_eq_of_abs_le (le_trans hu max_airspeed_le_max_speed)
    have hv' : (update_physics s dt).v = pre_v s dt * (MAX_AIRSPEED_MS / v_mag_new s dt) := by
      simp only [update_physics, if_pos hc]
      exact clamp_eq_of_abs_le (le_trans hv max_airspeed_le_max_speed)
    have hw' : (update_physics s dt).w = pre_w s dt * (MAX_AIRSPEED_MS / v_mag_new s dt) := by
      simp only [update_physics, if_pos hc]
      exact clamp_eq_of_abs_le (le_trans hw max_airspeed_le_max_speed)
    refine ⟨?_, ?_, ?_, ?_⟩
    · rw [hu']; exact le_trans hu max_airspeed_le_max_speed
    · rw [hv']; exact le_trans hv max_airspeed_le_max_speed
    · rw [hw']; exact le_trans hw max_airspeed_le_max_speed
    · rw [hu', hv', hw', sqrt_scale _ _ _ _ hcnn]
      rw [show Real.sqrt (pre_u s dt * pre_u s dt + pre_v s dt * pre_v s dt +
        pre_w s dt * pre_w s dt) = v_mag_new s dt from rfl]
      rw [hscale]
  · -- the cap does not fire: the magnitude was already at most the ceiling
    have hle : v_mag_new s dt ≤ MAX_AIRSPEED_MS := by
      by_contra hgt
      push_neg at hgt
      exact hc ⟨hgt, lt_trans (by rw [MAX_AIRSPEED_MS]; norm_num) hgt⟩
    have hu := le_trans (abs_pre_u_le s dt) hle
    have hv := le_trans (abs_pre_v_le s dt) hle
    have hw := le_trans (abs_pre_w_le s dt) hle
    have hu' : (update_physics s dt).u = pre_u s dt := by
      simp only [update_physics, if_neg hc]
      exact clamp_eq_of_abs_le (le_trans hu max_airspeed_le_max_speed)
    have hv' : (update_physics s dt).v = pre_v s dt := by
      simp only [update_physics, if_neg hc]
      exact clamp_eq_of_abs_le (le_trans hv max_airspeed_le_max_speed)
    have hw' : (update_physics s dt).w = pre_w s dt := by
      simp only [update_physics, if_neg hc]
      exact clamp_eq_of_abs_le (le_trans hw max_airspeed_le_max_speed)
    refine ⟨?_, ?_, ?_, ?_⟩
    · rw [hu']; exact le_trans hu max_airspeed_le_max_speed
    · rw [hv']; exact le_trans hv max_airspeed_le_max_speed
    · rw [hw']; exact le_trans hw max_airspeed_le_max_speed
    · rw [hu', hv', hw']
      exact hle

/-- C2: for every input state and every positive step, the state returned by
`update_physics` satisfies all stability clamps: each body-velocity component
is at most `MAX_SPEED` in magnitude, the combined airspeed is at most
`MAX_AIRSPEED_MS`, roll and pitch are within π, each angular rate is within
`MAX_ANGULAR_RATE`, and each position coordinate is within `POS_LIMIT`. -/
theorem claim_C2_stability_clamps (s : AircraftState) (dt : ℝ) (hdt : 0 < dt) :
    StateClamped (update_physics s dt) := by
  obtain ⟨hu, hv, hw, hmag⟩ := post_clamp_velocity s dt
  have hpi : (0 : ℝ) ≤ Real.pi := Real.pi_pos.le
  have hrate : (0 : ℝ) ≤ MAX_ANGULAR_RATE := by rw [MAX_ANGULAR_RATE]; norm_num
  have hpos : (0 : ℝ) ≤ POS_LIMIT := by rw [POS_LIMIT]; norm_num
  refine ⟨hu, hv, hw, hmag, ?_, ?_, ?_, ?_, ?_, ?_, ?_, ?_⟩
  · simpa only [update_physics, MAX_ANGLE] using
      abs_clamp_le (L := Real.pi) (x := phi_i s dt) hpi
  · simpa only [update_physics, MAX_ANGLE] using
      abs_clamp_le (L := Real.pi) (x := theta_i s dt) hpi
  · simpa only [update_physics] using
      abs_clamp_le (L := MAX_ANGULAR_RATE) (x := p_new s dt) hrate
  · simpa only [update_physics] using
      abs_clamp_le (L := MAX_ANGULAR_RATE) (x := q_new s dt) hrate
  · simpa only [update_physics] using
      abs_clamp_le (L := MAX_ANGULAR_RATE) (x := r_new s dt) hrate
  · simpa only [update_physics] using
      abs_clamp_le (L := POS_LIMIT) (x := x_i s dt) hpos
  · simpa only [update_physics] using
      abs_clamp_le (L := POS_LIMIT) (x := y_i s dt) hpos
  · simpa only [update_physics] using
      abs_clamp_le (L := POS_LIMIT) (x := z_i s dt) hpos

/-- The canonical all-zero on-ground state (main.py lines 49-55). -/
def zeroState : AircraftState :=
  ⟨0, 0, 0, 0, 0, 0, 0, 0, 0, 0, 0, 0, 0, 0, 0, 0⟩

/-- Witness for C2 at the canonical initial state and dt = 1. -/
theorem claim_C2_stability_clamps_witness : StateClamped (update_physics zeroState 1) :=
  claim_C2_stability_clamps zeroState 1 (by norm_num)

lemma v_mag_lt_vlof {s : AircraftState}
    (h : Real.sqrt (s.u * s.u + s.v * s.v + s.w * s.w) < V_LOF) : v_mag s < V_LOF := by
  rw [v_mag]
  by_cases hm : Real.sqrt (s.u * s.u + s.v * s.v + s.w * s.w) < 0.1
  · rw [if_pos hm, V_LOF]; norm_num
  · rw [if_neg hm]; exact h

/-- With the aircraft on the ground, the first ground branch leaves no upward
(`> 0`, NED down) excess: the intermediate vertical velocity is nonpositive. -/
lemma w_w1_nonpos {s : AircraftState} (dt : ℝ) (hz : 0 ≤ s.z) : w_w1 s dt ≤ 0 := by
  rw [w_w1]
  by_cases h0 : 0 < w_w0 s dt
  · rw [if_pos ⟨hz, h0⟩]
  · rw [if_neg (fun hc => h0 hc.2)]
    push_neg at h0
    exact h0

/-- On the ground below lift-off speed, the two ground branches force the
world vertical velocity to zero. -/
lemma w_w2_eq_zero {s : AircraftState} (dt : ℝ) (hz : 0 ≤ s.z) (hv : v_mag s < V_LOF) :
    w_w2 s dt = 0 := by
  have h1 := w_w1_nonpos dt hz
  rw [w_w2]
  rcases lt_or_eq_of_le h1 with hlt | heq
  · rw [if_pos ⟨hz, hv, hlt⟩]
  · rw [if_neg (fun hc => absurd hc.2.2 (by rw [heq]; exact lt_irrefl 0))]
    exact heq

lemma z_i_eq_zero {s : AircraftState} (dt : ℝ) (hz : 0 ≤ s.z) (hv : v_mag s < V_LOF) :
    z_i s dt = 0 := by
  have hzp : z_pre s dt = s.z := by
    rw [z_pre, w_w2_eq_zero dt hz hv]; ring
  rw [z_i, hzp]
  by_cases hpos : 0 < s.z
  · rw [if_pos hpos]
  · rw [if_neg hpos]
    push_neg at hpos
    linarith

/-- The tick sequence of the manual-physics loop: repeated `update_physics`
with a fixed step. -/
def tick_seq (dt : ℝ) (s0 : AircraftState) : ℕ → AircraftState
  | 0 => s0
  | n + 1 => update_physics (tick_seq dt s0 n) dt

/-- C4: (1) from any on-ground state (`z ≥ 0`) whose velocity magnitude is
below `V_LOF`, one `update_physics` step returns `z = 0`; (2) hence in a tick
sequence started on the ground, as long as every tick starts with airspeed
below `V_LOF` the aircraft stays at or below the ground plane (`z ≥ 0`,
altitude `-z ≤ 0`), i.e. altitude can first become positive only from a tick
whose starting airspeed is at least `V_LOF`. -/
theorem claim_C4_ground_liftoff :
    (∀ (s : AircraftState) (dt : ℝ), 0 < dt → 0 ≤ s.z →
      Real.sqrt (s.u * s.u + s.v * s.v + s.w * s.w) < V_LOF →
      (update_physics s dt).z = 0) ∧
    (∀ (dt : ℝ) (s0 : AircraftState) (n : ℕ), 0 < dt → 0 ≤ s0.z →
      (∀ k, k < n → Real.sqrt ((tick_seq dt s0 k).u * (tick_seq dt s0 k).u +
        (tick_seq dt s0 k).v * (tick_seq dt s0 k).v +
        (tick_seq dt s0 k).w * (tick_seq dt s0 k).w) < V_LOF) →
      0 ≤ (tick_seq dt s0 n).z) := by
  have hstep : ∀ (s : AircraftState) (dt : ℝ), 0 ≤ s.z →
      Real.sqrt (s.u * s.u + s.v * s.v + s.w * s.w) < V_LOF →
      (update_physics s dt).z = 0 := by
    intro s dt hz hv
    have hzi : z_i s dt = 0 := z_i_eq_zero dt hz (v_mag_lt_vlof hv)
    show max (-POS_LIMIT) (min POS_LIMIT (z_i s dt)) = 0
    rw [hzi, POS_LIMIT]
    norm_num
  refine ⟨fun s dt _ => hstep s dt, ?_⟩
  intro dt s0 n hdt hz0 hbelow
  induction n with
  | zero => exact hz0
  | succ m ih =>
      have hzm : 0 ≤ (tick_seq dt s0 m).z :=
        ih (fun k hk => hbelow k (Nat.lt_succ_of_lt hk))
      have hvm := hbelow m (Nat.lt_succ_self m)
      have := hstep (tick_seq dt s0 m) dt hzm hvm
      show 0 ≤ (update_physics (tick_seq dt s0 m) dt).z
      rw [this]

/-- Witness for C4 at the canonical initial state, dt = 1, one tick. -/
theorem claim_C4_ground_liftoff_witness :
    (update_physics zeroState 1).z = 0 ∧ 0 ≤ (tick_seq 1 zeroState 1).z := by
  have hsqrt : Real.sqrt (zeroState.u * zeroState.u + zeroState.v * zeroState.v +
      zeroState.w * zeroState.w) < V_LOF := by
    show Real.sqrt ((0 : ℝ) * 0 + 0 * 0 + 0 * 0) < V_LOF
    rw [show ((0 : ℝ) * 0 + 0 * 0 + 0 * 0) = 0 by ring, Real.sqrt_zero, V_LOF]
    norm_num
  constructor
  · exact claim_C4_ground_liftoff.1 zeroState 1 (by norm_num) le_rfl hsqrt
  · refine claim_C4_ground_liftoff.2 1 zeroState 1 (by norm_num) le_rfl ?_
    intro k hk
    have hk0 : k = 0 := Nat.lt_one_iff.mp hk
    subst hk0
    exact hsqrt

/-- C5: if the input state has velocity magnitude above `MAX_AIRSPEED_MS`,
then after one `update_physics` step the airspeed reported by
`state_to_telemetry` is at most `MAX_AIRSPEED_MS`, and the output velocity is
a nonnegative scalar multiple of the pre-clamp velocity vector
`(pre_u, pre_v, pre_w)` — direction preserved, not per-axis clamping. -/
theorem claim_C5_airspeed_cap (s : AircraftState) (dt : ℝ)
    (h : MAX_AIRSPEED_MS < Real.sqrt (s.u * s.u + s.v * s.v + s.w * s.w)) :
    (state_to_telemetry (update_physics s dt)).airspeed ≤ MAX_AIRSPEED_MS ∧
    ∃ c : ℝ, 0 ≤ c ∧
      (update_physics s dt).u = c * pre_u s dt ∧
      (update_physics s dt).v = c * pre_v s dt ∧
      (update_physics s dt).w = c * pre_w s dt := by
  refine ⟨telemetry_airspeed_le _, ?_⟩
  have hA : (0 : ℝ) < MAX_AIRSPEED_MS := by rw [MAX_AIRSPEED_MS]; norm_num
  have hm0 : 0 ≤ v_mag_new s dt := v_mag_new_nonneg s dt
  by_cases hc : MAX_AIRSPEED_MS < v_mag_new s dt ∧ (0.01 : ℝ) < v_mag_new s dt
  · refine ⟨MAX_AIRSPEED_MS / v_mag_new s dt, div_nonneg hA.le hm0, ?_, ?_, ?_⟩
    · have hcnn : 0 ≤ MAX_AIRSPEED_MS / v_mag_new s dt := div_nonneg hA.le hm0
      have hu : |pre_u s dt * (MAX_AIRSPEED_MS / v_mag_new s dt)| ≤ MAX_AIRSPEED_MS := by
        rw [abs_mul, abs_of_nonneg hcnn]
        calc |pre_u s dt| * (MAX_AIRSPEED_MS / v_mag_new s dt)
            ≤ v_mag_new s dt * (MAX_AIRSPEED_MS / v_mag_new s dt) :=
              mul_le_mul_of_nonneg_right (abs_pre_u_le s dt) hcnn
          _ = MAX_AIRSPEED_MS := by
              rw [mul_comm]
              exact div_mul_cancel₀ MAX_AIRSPEED_MS (ne_of_gt (lt_trans hA hc.1))
      have : (update_physics s dt).u = pre_u s dt * (MAX_AIRSPEED_MS / v_mag_new s dt) := by
        simp only [update_physics, if_pos hc]
        exact clamp_eq_of_abs_le (le_trans hu max_airspeed_le_max_speed)
      rw [this, mul_comm]
    · have hcnn : 0 ≤ MAX_AIRSPEED_MS / v_mag_new s dt := div_nonneg hA.le hm0
      have hv : |pre_v s dt * (MAX_AIRSPEED_MS / v_mag_new s dt)| ≤ MAX_AIRSPEED_MS := by
        rw [abs_mul, abs_of_nonneg hcnn]
        calc |pre_v s dt| * (MAX_AIRSPEED_MS / v_mag_new s dt)
            ≤ v_mag_new s dt * (MAX_AIRSPEED_MS / v_mag_new s dt) :=
              mul_le_mul_of_nonneg_right (abs_pre_v_le s dt) hcnn
          _ = MAX_AIRSPEED_MS := by
              rw [mul_comm]
              exact div_mul_cancel₀ MAX_AIRSPEED_MS (ne_of_gt (lt_trans hA hc.1))
      have : (update_physics s dt).v = pre_v s dt * (MAX_AIRSPEED_MS / v_mag_new s dt) := by
        simp only [update_physics, if_pos hc]
        exact clamp_eq_of_abs_le (le_trans hv max_airspeed_le_max_speed)
      rw [this, mul_comm]
    · have hcnn : 0 ≤ MAX_AIRSPEED_MS / v_mag_new s dt := div_nonneg hA.le hm0
      have hw : |pre_w s dt * (MAX_AIRSPEED_MS / v_mag_new s dt)| ≤ MAX_AIRSPEED_MS := by
        rw [abs_mul, abs_of_nonneg hcnn]
        calc |pre_w s dt| * (MAX_AIRSPEED_MS / v_mag_new s dt)
            ≤ v_mag_new s dt * (MAX_AIRSPEED_MS / v_mag_new s dt) :=
              mul_le_mul_of_nonneg_right (abs_pre_w_le s dt) hcnn
          _ = MAX_AIRSPEED_MS := by
              rw [mul_comm]
              exact div_mul_cancel₀ MAX_AIRSPEED_MS (ne_of_gt (lt_trans hA hc.1))
      have : (update_physics s dt).w = pre_w s dt * (MAX_AIRSPEED_MS / v_mag_new s dt) := by
        simp only [update_physics, if_pos hc]
        exact clamp_eq_of_abs_le (le_trans hw max_airspeed_le_max_speed)
      rw [this, mul_comm]
  · refine ⟨1, by norm_num, ?_, ?_, ?_⟩
    · have hle : v_mag_new s dt ≤ MAX_AIRSPEED_MS := by
        by_contra hgt
        push_neg at hgt
        exact hc ⟨hgt, lt_trans (by rw [MAX_AIRSPEED_MS]; norm_num) hgt⟩
      have : (update_physics s dt).u = pre_u s dt := by
        simp only [update_physics, if_neg hc]
        exact clamp_eq_of_abs_le
          (le_trans (le_trans (abs_pre_u_le s dt) hle) max_airspeed_le_max_speed)
      rw [this, one_mul]
    · have hle : v_mag_new s dt ≤ MAX_AIRSPEED_MS := by
        by_contra hgt
        push_neg at hgt
        exact hc ⟨hgt, lt_trans (by rw [MAX_AIRSPEED_MS]; norm_num) hgt⟩
      have : (update_physics s dt).v = pre_v s dt := by
        simp only [update_physics, if_neg hc]
        exact clamp_eq_of_abs_le
          (le_trans (le_trans (abs_pre_v_le s dt) hle) max_airspeed_le_max_speed)
      rw [this, one_mul]
    · have hle : v_mag_new s dt ≤ MAX_AIRSPEED_MS := by
        by_contra hgt
        push_neg at hgt
        exact hc ⟨hgt, lt_trans (by rw [MAX_AIRSPEED_MS]; norm_num) hgt⟩
      have : (update_physics s dt).w = pre_w s dt := by
        simp only [update_physics, if_neg hc]
        exact clamp_eq_of_abs_le
          (le_trans (le_trans (abs_pre_w_le s dt) hle) max_airspeed_le_max_speed)
      rw [this, one_mul]

/-- A state moving at 100 m/s along the body x axis, above the ceiling. -/
def fastState : AircraftState :=
  ⟨0, 0, 0, 100, 0, 0, 0, 0, 0, 0, 0, 0, 0, 0, 0, 0⟩

/-- Witness for C5 at a concrete over-speed state. -/
theorem claim_C5_airspeed_cap_witness :
    (state_to_telemetry (update_physics fastState 1)).airspeed ≤ MAX_AIRSPEED_MS ∧
    ∃ c : ℝ, 0 ≤ c ∧
      (update_physics fastState 1).u = c * pre_u fastState 1 ∧
      (update_physics fastState 1).v = c * pre_v fastState 1 ∧
      (update_physics fastState 1).w = c * pre_w fastState 1 := by
  apply claim_C5_airspeed_cap fastState 1
  show MAX_AIRSPEED_MS < Real.sqrt ((100 : ℝ) * 100 + 0 * 0 + 0 * 0)
  rw [show ((100 : ℝ) * 100 + 0 * 0 + 0 * 0) = 100 * 100 by ring,
    Real.sqrt_mul_self (by norm_num : (0 : ℝ) ≤ 100), MAX_AIRSPEED_MS]
  norm_num

-- ----------------------------------------------------------------------
-- Model of src/main.py: global state, bounds monitor, scheduler loop.
-- ----------------------------------------------------------------------

-- Constants from main.py lines 41-42 and 96.
def ALTITUDE_MIN : ℝ := -200.0
def ALTITUDE_MAX : ℝ := 50000.0
def POSITION_ABS_MAX : ℝ := 100000.0
def MAX_JSBSIM_FAILURES : ℕ := 10

/-- The `_control` dict (main.py line 37). -/
structure Controls where
  throttle : ℝ
  elevator : ℝ
  aileron : ℝ
  rudder : ℝ

def neutralControls : Controls := ⟨0, 0, 0, 0⟩

/-- Mirror of `get_initial_state` (main.py lines 45-55): returns `None` when
JSBSim is available, otherwise the canonical all-zero on-ground state. -/
def get_initial_state (avail : Bool) : Option AircraftState :=
  if avail then none else some zeroState

/-- Mirror of `_state_out_of_bounds` (main.py lines 80-89).  The argument is
`none` for an empty/falsy telemetry dict (line 81-82); the altitude and the
two per-axis absolute-position checks follow lines 83-89. -/
def state_out_of_bounds (t : Option Telem) : Bool :=
  match t with
  | none => true
  | some st =>
      if st.altitude < ALTITUDE_MIN ∨ ALTITUDE_MAX < st.altitude then true
      else if POSITION_ABS_MAX < |st.x| ∨ POSITION_ABS_MAX < |st.y| then true
      else false

/-- The mutable globals of main.py visible to the scheduler loop:
`_jsbsim is not None` (`present`), `_state` (`mstate`), `_control`,
`jsbsim_failed_count`, the function attribute `_jsbsim_slow_speed_count`,
and `_ws_connections` (as subscriber ids). -/
structure LoopState where
  present : Bool
  mstate : Option AircraftState
  control : Controls
  failCount : ℕ
  slowCount : ℕ
  conns : List ℕ

/-- Per-tick environment: the behavior of the opaque JSBSim wrapper and of
the subscriber sockets during this tick.  `stepOk` is the result of
`_jsbsim.step()`, `t1` the telemetry from `_jsbsim.get_state()`, `t2` the
telemetry re-read after a bounds reset, and `sendFail w` whether the send to
subscriber `w` raises. -/
structure TickEnv where
  stepOk : Bool
  t1 : Telem
  t2 : Telem
  sendFail : ℕ → Bool

/-- Mirror of `reset_sim` (main.py lines 58-77): controls zeroed first; with
JSBSim available the wrapper is created when `_jsbsim is None` (constructor
assumed to succeed, as it did at startup) and reset in place, otherwise
`_state` is re-created from `get_initial_state`. -/
def reset_sim (avail : Bool) (ls : LoopState) : LoopState :=
  let ls1 := { ls with control := neutralControls }
  if avail then { ls1 with present := true }
  else { ls1 with mstate := get_initial_state avail }

/-- The send half of the broadcast loop (main.py lines 228-233): iterate over
the current subscribers, accumulating successful deliveries and the `dead`
list in order. -/
def broadcast_send (fail : ℕ → Bool) (conns : List ℕ) : List ℕ × List ℕ :=
  conns.foldl
    (fun acc w => if fail w then (acc.1, acc.2 ++ [w]) else (acc.1 ++ [w], acc.2))
    ([], [])

/-- The removal half (main.py lines 234-235): `for ws in dead:
_ws_connections.remove(ws)`. -/
def prune (conns dead : List ℕ) : List ℕ :=
  dead.foldl (fun l w => l.erase w) conns

/-- One full broadcast: the delivered list and the surviving subscriber
list. -/
def broadcast_step (fail : ℕ → Bool) (conns : List ℕ) : List ℕ × List ℕ :=
  let sd := broadcast_send fail conns
  (sd.1, prune conns sd.2)

/-- Tail of the loop body (main.py lines 218-235): bounds check with reset,
then broadcast with pruning.  The re-read telemetry after a reset only feeds
the broadcast payload, never the loop state. -/
def finish_tick (avail : Bool) (env : TickEnv) (t : Telem) (ls : LoopState) : LoopState :=
  let ls1 := if state_out_of_bounds (some t) then reset_sim avail ls else ls
  { ls1 with conns := (broadcast_step env.sendFail ls1.conns).2 }

/-- The JSBSim branch of the loop body (main.py lines 153-206):
`set_controls` (opaque), the step-failure counter with threshold failover,
the all-at-rest telemetry check, and the throttle-high/airspeed-low
watchdog. -/
def jsbsim_tick (avail : Bool) (env : TickEnv) (ls : LoopState) : LoopState :=
  if env.stepOk then
    let t := env.t1
    if t.altitude = 0 ∧ t.airspeed = 0 ∧ t.phi_deg = 0 then
      let fc := ls.failCount + 1
      if MAX_JSBSIM_FAILURES ≤ fc then
        { ls with present := false, mstate := get_initial_state avail, failCount := fc }
      else { ls with failCount := fc }
    else if 0.3 < ls.control.throttle ∧ t.airspeed < 3 then
      let sc := ls.slowCount + 1
      if 60 < sc then
        { ls with present := false, mstate := get_initial_state avail, slowCount := 0 }
      else finish_tick avail env t { ls with slowCount := sc, failCount := 0 }
    else finish_tick avail env t { ls with slowCount := 0, failCount := 0 }
  else
    let fc := ls.failCount + 1
    if MAX_JSBSIM_FAILURES ≤ fc then
      { ls with present := false, mstate := get_initial_state avail, failCount := fc }
    else reset_sim avail { ls with failCount := fc }

/-- The manual-physics branch (main.py lines 207-216).  When `_state` is
`None` it is re-created from `get_initial_state()`; if that still yields
`None` (JSBSim available), `vars(None)` on line 212 raises and the outer
handler (lines 236-239) runs `reset_sim()`.  Otherwise controls are copied
in, `update_physics` advances one 1/60 s step and the tick finishes. -/
def manual_tick (avail : Bool) (env : TickEnv) (ls : LoopState) : LoopState :=
  let st := match ls.mstate with
            | none => get_initial_state avail
            | some s => some s
  match st with
  | none => reset_sim avail { ls with mstate := none }
  | some s =>
      let s1 := { s with
        throttle := ls.control.throttle
        elevator := ls.control.elevator
        aileron := ls.control.aileron
        rudder := ls.control.rudder }
      let s2 := update_physics s1 (1 / 60)
      finish_tick avail env (state_to_telemetry s2) { ls with mstate := some s2 }

/-- One iteration of the `while True` loop of `physics_loop`
(main.py lines 150-239), for a fixed `JSBSIM_AVAILABLE` value. -/
def tick (avail : Bool) (env : TickEnv) (ls : LoopState) : LoopState :=
  if avail && ls.present then jsbsim_tick avail env ls else manual_tick avail env ls

/-- The manual branch never clears the backend handle: if the backend was
present before a manual tick, it is present after (`reset_sim` can only
re-create it). -/
lemma manual_tick_present_true (avail : Bool) (env : TickEnv) (ls : LoopState)
    (hp : ls.present = true) : (manual_tick avail env ls).present = true := by
  unfold manual_tick
  cases hms : ls.mstate with
  | none =>
      cases avail with
      | false =>
          show (finish_tick _ _ _ _).present = true
          unfold finish_tick reset_sim
          split_ifs <;> simp [hp]
      | true =>
          show (reset_sim true _).present = true
          unfold reset_sim
          simp
  | some s =>
      show (finish_tick _ _ _ _).present = true
      unfold finish_tick reset_sim
      cases avail with
      | false => split_ifs <;> simp [hp]
      | true => split_ifs <;> simp [hp]

/-- In the JSBSim branch, the only way the backend handle can become `None`
is one of the three downgrade triggers, and each of them leaves the staged
controls untouched and sets `_state` to `get_initial_state()`. -/
lemma jsbsim_tick_downgrade (avail : Bool) (env : TickEnv) (ls : LoopState)
    (hp : ls.present = true) (hd : (jsbsim_tick avail env ls).present = false) :
    (jsbsim_tick avail env ls).control = ls.control ∧
      (jsbsim_tick avail env ls).mstate = get_initial_state avail := by
  unfold jsbsim_tick at hd ⊢
  by_cases hstep : env.stepOk = true
  · rw [if_pos hstep] at hd ⊢
    by_cases hrest : env.t1.altitude = 0 ∧ env.t1.airspeed = 0 ∧ env.t1.phi_deg = 0
    · rw [if_pos hrest] at hd ⊢
      by_cases hfc : MAX_JSBSIM_FAILURES ≤ ls.failCount + 1
      · rw [if_pos hfc]
        exact ⟨rfl, rfl⟩
      · rw [if_neg hfc] at hd
        exact absurd hd (by simp [hp])
    · rw [if_neg hrest] at hd ⊢
      by_cases hslow : (0.3 : ℝ) < ls.control.throttle ∧ env.t1.airspeed < 3
      · rw [if_pos hslow] at hd ⊢
        by_cases hsc : 60 < ls.slowCount + 1
        · rw [if_pos hsc]
          exact ⟨rfl, rfl⟩
        · rw [if_neg hsc] at hd
          exfalso
          revert hd
          unfold finish_tick reset_sim
          split_ifs <;> simp [hp]
      · rw [if_neg hslow] at hd ⊢
        exfalso
        revert hd
        unfold finish_tick reset_sim
        split_ifs <;> simp [hp]
  · rw [if_neg hstep] at hd ⊢
    by_cases hfc : MAX_JSBSIM_FAILURES ≤ ls.failCount + 1
    · rw [if_pos hfc]
      exact ⟨rfl, rfl⟩
    · rw [if_neg hfc] at hd
      exfalso
      revert hd
      unfold reset_sim
      split_ifs <;> simp [hp]

/-- Any tick that takes the backend handle from present to absent leaves the
staged controls unchanged and sets `_state` to `get_initial_state()`. -/
lemma tick_downgrade (avail : Bool) (env : TickEnv) (ls : LoopState)
    (hp : ls.present = true) (hd : (tick avail env ls).present = false) :
    (tick avail env ls).control = ls.control ∧
      (tick avail env ls).mstate = get_initial_state avail := by
  unfold tick at hd ⊢
  by_cases hb : (avail && ls.present) = true
  · rw [if_pos hb] at hd ⊢
    exact jsbsim_tick_downgrade avail env ls hp hd
  · rw [if_neg hb] at hd
    exact absurd (manual_tick_present_true avail env ls hp) (by rw [hd]; simp)

/-- All-zero telemetry frame tagged as coming from JSBSim. -/
def restTelem : Telem :=
  ⟨0, 0, 0, 0, 0, 0, 0, 0, 0, 0, 0, 0, "jsbsim"⟩

/-- Environment of a tick on which `_jsbsim.step()` returns False and no
subscriber send fails. -/
def failEnv : TickEnv :=
  { stepOk := false, t1 := restTelem, t2 := restTelem, sendFail := fun _ => false }

/-- Loop state at startup when JSBSim initialized successfully:
wrapper present, `_state` still `None`, neutral controls, zero counters. -/
def startLoop : LoopState :=
  { present := true, mstate := none, control := neutralControls,
    failCount := 0, slowCount := 0, conns := [] }

/-- C3 (code evaluation at the failing input): with JSBSim available and
`step()` failing on every tick, the backend handle is still present after 9
ticks, is dropped at the 10th consecutive failure (the downgrade), with
`_state = None` — and one tick later the handle is present again: the manual
path crashes on the `None` state, the exception handler runs `reset_sim`,
and `reset_sim` re-creates the discarded JSBSim backend, which the next tick
will step again.  This contradicts the claim that the failed backend is
never instantiated or stepped again until process restart. -/
theorem claim_C3_backend_resurrection :
    ((tick true failEnv)^[9] startLoop).present = true ∧
    ((tick true failEnv)^[10] startLoop).present = false ∧
    ((tick true failEnv)^[10] startLoop).mstate = none ∧
    ((tick true failEnv)^[11] startLoop).present = true := by
  refine ⟨?_, ?_, ?_, ?_⟩ <;> rfl

/-- Telemetry of a backend that accepts throttle but barely moves:
altitude 100 m, roll 1 degree, airspeed 1 m/s. -/
def slowTelem : Telem :=
  ⟨0, 0, 100, 1, 0, 0, 1, 0, 0, 0, 0, 0.9, "jsbsim"⟩

/-- Environment of a tick whose step succeeds but reports `slowTelem`. -/
def slowEnv : TickEnv :=
  { stepOk := true, t1 := slowTelem, t2 := slowTelem, sendFail := fun _ => false }

/-- Loop state one tick before the throttle-high/airspeed-low watchdog
fires: throttle staged at 0.9 and 60 slow ticks already counted. -/
def watchdogLoop : LoopState :=
  { present := true, mstate := none, control := ⟨0.9, 0, 0, 0⟩,
    failCount := 0, slowCount := 60, conns := [] }

/-- C6 counterexample: the watchdog-triggered failover transition (backend
present before, absent after) leaves the staged throttle at 0.9 — the
controls are not reset to neutral on the transition. -/
theorem claim_C6_counterexample :
    watchdogLoop.present = true ∧
    (tick true slowEnv watchdogLoop).present = false ∧
    (tick true slowEnv watchdogLoop).control.throttle = 0.9 ∧
    (0.9 : ℝ) ≠ 0 := by
  have key : tick true slowEnv watchdogLoop =
      { present := false, mstate := get_initial_state true, control := ⟨0.9, 0, 0, 0⟩,
        failCount := 0, slowCount := 0, conns := [] } := by
    show jsbsim_tick true slowEnv watchdogLoop = _
    norm_num [jsbsim_tick, slowEnv, slowTelem, watchdogLoop]
  refine ⟨rfl, ?_, ?_, by norm_num⟩
  · rw [key]
  · rw [key]

/-- C6 amended: no failover transition resets the staged controls; every
tick that takes the backend from present to absent leaves `_control`
exactly as it was (controls are zeroed only by `reset_sim`, which is not
invoked on the downgrade paths). -/
theorem claim_C6_controls_not_reset (env : TickEnv) (ls : LoopState)
    (hp : ls.present = true) (hd : (tick true env ls).present = false) :
    (tick true env ls).control = ls.control :=
  (tick_downgrade true env ls hp hd).1

/-- Loop state with 9 consecutive step failures already counted and a
nonzero staged throttle. -/
def nineFailLoop : LoopState :=
  { present := true, mstate := none, control := ⟨0.5, 0, 0, 0⟩,
    failCount := 9, slowCount := 0, conns := [] }

/-- Witness for the amended C6 at the step-failure-threshold downgrade. -/
theorem claim_C6_controls_not_reset_witness :
    (tick true failEnv nineFailLoop).control = nineFailLoop.control :=
  claim_C6_controls_not_reset failEnv nineFailLoop rfl rfl

/-- C10: with JSBSim available, `get_initial_state()` returns `None` rather
than the canonical on-ground state, so every failover path of the loop that
downgrades to manual physics leaves `_state = None`. -/
theorem claim_C10_initial_state_none :
    get_initial_state true = none ∧
    ∀ (env : TickEnv) (ls : LoopState), ls.present = true →
      (tick true env ls).present = false → (tick true env ls).mstate = none := by
  refine ⟨rfl, fun env ls hp hd => ?_⟩
  exact (tick_downgrade true env ls hp hd).2

/-- Loop state with 9 consecutive step failures and a different staged
control vector, for the C10 witness. -/
def nineFailLoopB : LoopState :=
  { present := true, mstate := none, control := ⟨0.7, 0.1, 0, 0⟩,
    failCount := 9, slowCount := 3, conns := [] }

/-- Witness for C10 at the step-failure-threshold downgrade. -/
theorem claim_C10_initial_state_none_witness :
    (tick true failEnv nineFailLoopB).mstate = none :=
  claim_C10_initial_state_none.2 failEnv nineFailLoopB rfl rfl

/-- The bounds predicate as the claim states it (Euclidean horizontal
magnitude), for comparison with the code: telemetry is invalid if empty, if
altitude is outside the window, or if `sqrt (x^2 + y^2)` exceeds
`POSITION_ABS_MAX`. -/
def spec_out_of_bounds (t : Option Telem) : Prop :=
  match t with
  | none => True
  | some st =>
      st.altitude < ALTITUDE_MIN ∨ ALTITUDE_MAX < st.altitude ∨
        POSITION_ABS_MAX < Real.sqrt (st.x * st.x + st.y * st.y)

/-- A frame at altitude 0 parked at the box corner x = y = 80000 m. -/
def cornerTelem : Telem :=
  ⟨80000, 80000, 0, 0, 0, 0, 0, 0, 0, 0, 0, 0, "jsbsim"⟩

/-- C7 counterexample: at x = y = 80000 the Euclidean horizontal magnitude
is about 113137 m > `POSITION_ABS_MAX`, so the claimed predicate holds, but
`_state_out_of_bounds` — which checks `|x|` and `|y|` separately — returns
false.  The code implements a per-axis box, not a Euclidean disc. -/
theorem claim_C7_counterexample :
    spec_out_of_bounds (some cornerTelem) ∧
      state_out_of_bounds (some cornerTelem) = false := by
  constructor
  · right; right
    show POSITION_ABS_MAX < Real.sqrt ((80000 : ℝ) * 80000 + 80000 * 80000)
    have h1 : POSITION_ABS_MAX = (100000 : ℝ) := by rw [POSITION_ABS_MAX]; norm_num
    rw [h1, Real.lt_sqrt (by norm_num : (0 : ℝ) ≤ 100000)]
    norm_num
  · show state_out_of_bounds (some cornerTelem) = false
    rw [state_out_of_bounds]
    rw [if_neg, if_neg]
    · show ¬(POSITION_ABS_MAX < |cornerTelem.x| ∨ POSITION_ABS_MAX < |cornerTelem.y|)
      rw [show cornerTelem.x = (80000 : ℝ) from rfl, show cornerTelem.y = (80000 : ℝ) from rfl,
        POSITION_ABS_MAX]
      rw [abs_of_nonneg (by norm_num : (0 : ℝ) ≤ 80000)]
      norm_num
    · show ¬(cornerTelem.altitude < ALTITUDE_MIN ∨ ALTITUDE_MAX < cornerTelem.altitude)
      rw [show cornerTelem.altitude = (0 : ℝ) from rfl, ALTITUDE_MIN, ALTITUDE_MAX]
      norm_num

/-- C7 amended: `_state_out_of_bounds` returns true exactly when the
telemetry is empty, or its altitude lies outside
`[ALTITUDE_MIN, ALTITUDE_MAX]`, or `|x|` exceeds `POSITION_ABS_MAX`, or
`|y|` does — a per-axis box on the horizontal position, not the Euclidean
magnitude. -/
theorem claim_C7_bounds_predicate :
    state_out_of_bounds none = true ∧
    ∀ t : Telem, state_out_of_bounds (some t) = true ↔
      (t.altitude < ALTITUDE_MIN ∨ ALTITUDE_MAX < t.altitude ∨
        POSITION_ABS_MAX < |t.x| ∨ POSITION_ABS_MAX < |t.y|) := by
  refine ⟨rfl, fun t => ?_⟩
  rw [state_out_of_bounds]
  by_cases h1 : t.altitude < ALTITUDE_MIN ∨ ALTITUDE_MAX < t.altitude
  · rw [if_pos h1]
    simp only [true_iff]
    tauto
  · rw [if_neg h1]
    by_cases h2 : POSITION_ABS_MAX < |t.x| ∨ POSITION_ABS_MAX < |t.y|
    · rw [if_pos h2]
      simp only [true_iff]
      tauto
    · rw [if_neg h2]
      constructor
      · intro hfalse
        exact absurd hfalse (by norm_num)
      · intro hdisj
        exfalso
        tauto

/-- The value found under a control key in a parsed inbound message:
absent, a value `float()` converts (already as a real), or a value on which
`float()` raises (`bad`). -/
inductive JVal where
  | absent : JVal
  | num : ℝ → JVal
  | bad : JVal

/-- A parsed control message: the four optional control keys
(main.py lines 363-370). -/
structure CtrlMsg where
  throttle : JVal
  elevator : JVal
  aileron : JVal
  rudder : JVal

/-- main.py lines 363-364: `if "throttle" in data: _control["throttle"] =
max(0.0, min(1.0, float(...)))`.  The Bool is false when `float()` raised,
aborting the remaining assignments while keeping the ones already made. -/
def step_throttle (c : Controls) (v : JVal) : Controls × Bool :=
  match v with
  | .absent => (c, true)
  | .num r => ({ c with throttle := max 0 (min 1 r) }, true)
  | .bad => (c, false)

/-- main.py lines 365-366. -/
def step_elevator (c : Controls) (v : JVal) : Controls × Bool :=
  match v with
  | .absent => (c, true)
  | .num r => ({ c with elevator := max (-1) (min 1 r) }, true)
  | .bad => (c, false)

/-- main.py lines 367-368. -/
def step_aileron (c : Controls) (v : JVal) : Controls × Bool :=
  match v with
  | .absent => (c, true)
  | .num r => ({ c with aileron := max (-1) (min 1 r) }, true)
  | .bad => (c, false)

/-- main.py lines 369-370. -/
def step_rudder (c : Controls) (v : JVal) : Controls × Bool :=
  match v with
  | .absent => (c, true)
  | .num r => ({ c with rudder := max (-1) (min 1 r) }, true)
  | .bad => (c, false)

/-- Mirror of the per-message body of `websocket_endpoint`
(main.py lines 360-372): `none` models a `json.loads` failure (nothing
applied); otherwise the four keys are applied in order and the first
`float()` failure aborts the rest — the exception is swallowed by the
`except` on line 371, leaving earlier assignments in place. -/
def websocket_apply (c : Controls) (m : Option CtrlMsg) : Controls :=
  match m with
  | none => c
  | some d =>
      let s1 := step_throttle c d.throttle
      if s1.2 then
        let s2 := step_elevator s1.1 d.elevator
        if s2.2 then
          let s3 := step_aileron s2.1 d.aileron
          if s3.2 then (step_rudder s3.1 d.rudder).1
          else s3.1
        else s2.1
      else s1.1

/-- A malformed inbound message in the sense of the claim: unparseable
JSON, or some present control key whose value `float()` cannot convert. -/
def malformed_msg (m : Option CtrlMsg) : Prop :=
  match m with
  | none => True
  | some d => d.throttle = .bad ∨ d.elevator = .bad ∨ d.aileron = .bad ∨ d.rudder = .bad

/-- A message with a convertible throttle and a non-convertible elevator. -/
def badMsg : CtrlMsg := ⟨.num 1, .bad, .absent, .absent⟩

/-- C8 counterexample: the message `{"throttle": 1.0, "elevator": <bad>}` is
malformed, yet it changes the stored controls — the throttle assignment
happens before the elevator conversion raises, so the drop is not atomic. -/
theorem claim_C8_counterexample :
    malformed_msg (some badMsg) ∧
      websocket_apply neutralControls (some badMsg) ≠ neutralControls := by
  constructor
  · right; left; rfl
  · intro hEq
    have h1 : (websocket_apply neutralControls (some badMsg)).throttle =
        max 0 (min 1 (1 : ℝ)) := rfl
    rw [hEq] at h1
    have h2 : max (0 : ℝ) (min 1 (1 : ℝ)) = 1 := by
      rw [min_self]
      exact max_eq_right (by norm_num)
    rw [h2] at h1
    have h3 : neutralControls.throttle = (0 : ℝ) := rfl
    rw [h3] at h1
    norm_num at h1

/-- C8 amended: malformed messages are dropped only from the first
non-convertible key onward.  Unparseable JSON leaves all four values
unchanged; in a parsed message, a non-convertible key and every key after
it (in the fixed order throttle, elevator, aileron, rudder) retain their
previous stored values, while keys applied before it keep their new values
(the drop is not atomic, as the counterexample shows). -/
theorem claim_C8_drop_from_first_bad_key (c : Controls) (d : CtrlMsg) :
    websocket_apply c none = c ∧
    (d.throttle = .bad → websocket_apply c (some d) = c) ∧
    (d.elevator = .bad →
      (websocket_apply c (some d)).elevator = c.elevator ∧
      (websocket_apply c (some d)).aileron = c.aileron ∧
      (websocket_apply c (some d)).rudder = c.rudder) ∧
    (d.aileron = .bad →
      (websocket_apply c (some d)).aileron = c.aileron ∧
      (websocket_apply c (some d)).rudder = c.rudder) ∧
    (d.rudder = .bad → (websocket_apply c (some d)).rudder = c.rudder) := by
  obtain ⟨vt, ve, va, vr⟩ := d
  refine ⟨rfl, ?_, ?_, ?_, ?_⟩
  · intro ht
    cases vt with
    | absent => exact absurd ht (by intro hx; cases hx)
    | num r => exact absurd ht (by intro hx; cases hx)
    | bad => rfl
  · intro he
    cases he
    cases vt <;> exact ⟨rfl, rfl, rfl⟩
  · intro ha
    cases ha
    cases vt <;> cases ve <;> exact ⟨rfl, rfl⟩
  · intro hr
    cases hr
    cases vt <;> cases ve <;> cases va <;> rfl

/-- Witness for the amended C8: a bad-throttle message leaves everything
unchanged, and a bad-rudder message leaves the stored rudder unchanged. -/
theorem claim_C8_drop_from_first_bad_key_witness :
    websocket_apply neutralControls (some ⟨.bad, .absent, .absent, .absent⟩) =
      neutralControls ∧
    (websocket_apply neutralControls (some ⟨.num 0.5, .absent, .absent, .bad⟩)).rudder =
      neutralControls.rudder :=
  ⟨(claim_C8_drop_from_first_bad_key neutralControls ⟨.bad, .absent, .absent, .absent⟩).2.1 rfl,
   (claim_C8_drop_from_first_bad_key neutralControls
      ⟨.num 0.5, .absent, .absent, .bad⟩).2.2.2.2 rfl⟩

lemma broadcast_send_spec (fail : ℕ → Bool) (l : List ℕ) :
    ∀ a b : List ℕ,
      l.foldl (fun acc w => if fail w then (acc.1, acc.2 ++ [w]) else (acc.1 ++ [w], acc.2))
          (a, b) =
        (a ++ l.filter (fun w => !fail w), b ++ l.filter fail) := by
  induction l with
  | nil =>
      intro a b
      simp
  | cons w t ih =>
      intro a b
      by_cases hw : fail w
      · rw [List.foldl_cons, if_pos hw, ih, List.filter_cons_of_pos hw,
          List.filter_cons_of_neg (by simp [hw])]
        simp
      · rw [List.foldl_cons, if_neg hw, ih, List.filter_cons_of_neg hw,
          List.filter_cons_of_pos (by simp [hw])]
        simp

/-- The broadcast loop delivers to exactly the non-failing subscribers (in
order) and collects exactly the failing ones as `dead` (in order). -/
lemma broadcast_send_eq (fail : ℕ → Bool) (conns : List ℕ) :
    broadcast_send fail conns = (conns.filter (fun w => !fail w), conns.filter fail) := by
  rw [broadcast_send, broadcast_send_spec]
  simp

lemma prune_cons_of_ne (a : ℕ) (l ds : List ℕ) (h : ∀ w ∈ ds, w ≠ a) :
    prune (a :: l) ds = a :: prune l ds := by
  induction ds generalizing l with
  | nil => rfl
  | cons w ws ih =>
      have hw : w ≠ a := h w (List.mem_cons_self w ws)
      show ws.foldl (fun acc x => acc.erase x) ((a :: l).erase w) =
        a :: ws.foldl (fun acc x => acc.erase x) (l.erase w)
      rw [List.erase_cons_tail (by simp only [beq_iff_eq]; exact Ne.symm hw)]
      exact ih (l.erase w) (fun x hx => h x (List.mem_cons_of_mem w hx))

/-- Removing each element of `l.filter fail` from a duplicate-free `l`
leaves exactly `l.filter (fun w => !fail w)`. -/
lemma prune_filter (fail : ℕ → Bool) : ∀ l : List ℕ, l.Nodup →
    prune l (l.filter fail) = l.filter (fun w => !fail w) := by
  intro l
  induction l with
  | nil => intro _; rfl
  | cons a t ih =>
      intro hnd
      obtain ⟨ha, ht⟩ := List.nodup_cons.mp hnd
      by_cases hfa : fail a
      · rw [List.filter_cons_of_pos hfa, List.filter_cons_of_neg (by simp [hfa])]
        have hstep : prune (a :: t) (a :: t.filter fail) = prune t (t.filter fail) := by
          show (t.filter fail).foldl (fun acc x => acc.erase x) ((a :: t).erase a) = _
          rw [List.erase_cons_head]
          rfl
        rw [hstep, ih ht]
      · rw [List.filter_cons_of_neg hfa, List.filter_cons_of_pos (by simp [hfa])]
        rw [prune_cons_of_ne a t (t.filter fail) ?hne, ih ht]
        case hne =>
          intro w hw
          have hwt : w ∈ t := (List.mem_filter.mp hw).1
          intro hwa
          exact ha (hwa ▸ hwt)

/-- C9: for any duplicate-free subscriber list and any set of failing sends,
every subscriber whose send does not raise receives the frame of this tick,
and the surviving subscriber list is exactly the non-failing subscribers —
only the failing ones are removed. -/
theorem claim_C9_broadcast_isolation (fail : ℕ → Bool) (conns : List ℕ)
    (h : conns.Nodup) :
    (∀ w ∈ conns, fail w = false → w ∈ (broadcast_step fail conns).1) ∧
    (broadcast_step fail conns).2 = conns.filter (fun w => !fail w) := by
  have hsend := broadcast_send_eq fail conns
  constructor
  · intro w hw hfw
    show w ∈ (broadcast_send fail conns).1
    rw [hsend]
    simp [List.mem_filter, hw, hfw]
  · show prune conns (broadcast_send fail conns).2 = _
    rw [hsend]
    exact prune_filter fail conns h

/-- Witness for C9: three subscribers, the middle one failing. -/
theorem claim_C9_broadcast_isolation_witness :
    (∀ w ∈ [1, 2, 3], (fun n : ℕ => n == 2) w = false →
        w ∈ (broadcast_step (fun n : ℕ => n == 2) [1, 2, 3]).1) ∧
    (broadcast_step (fun n : ℕ => n == 2) [1, 2, 3]).2 =
      [1, 2, 3].filter (fun w => !(w == 2)) :=
  claim_C9_broadcast_isolation (fun n : ℕ => n == 2) [1, 2, 3] (by decide)
